import Mathlib

/-!
Shallow embedding of the MusicBrainz client core of open-music-player
(src/musicbrainz/client.rs, src/musicbrainz/error.rs, src/musicbrainz/models.rs,
src/db/models.rs), together with theorems settling the specification claims.

Durations are modelled in whole seconds (`Duration::from_secs`); wall-clock
instants are modelled as integers (seconds).  The network transport is
modelled as a function from the attempt index to the transport outcome of
that attempt, so that a single logical request observes a fixed sequence of
responses.
-/

namespace OMP

/-- Constant `RATE_LIMIT_INTERVAL: Duration = Duration::from_secs(1)` (seconds). -/
def RATE_LIMIT_INTERVAL : Int := 1

/-- Constant `MAX_RETRIES: u32 = 3`. -/
def MAX_RETRIES : Nat := 3

/-- Constant `INITIAL_BACKOFF: Duration = Duration::from_secs(1)` (seconds). -/
def INITIAL_BACKOFF : Nat := 1

/-- Constant `DEFAULT_BASE_URL: &str = "https://musicbrainz.org/ws/2"`. -/
def DEFAULT_BASE_URL : String := "https://musicbrainz.org/ws/2"

/-- Error type `MbError` from src/musicbrainz/error.rs.  `Request` abstracts the wrapped
`reqwest::Error`; the other variants carry the same data as the source. -/
inductive MbError where
  | Request : MbError
  | RateLimited : MbError
  | NotFound : String → MbError
  | InvalidMbid : String → MbError
  | ParseError : String → MbError
  | ApiError : Nat → String → MbError
deriving Repr, DecidableEq

/-- Alias `MbResult<T> = Result<T, MbError>`. -/
abbrev MbResult (α : Type) := Except MbError α

/-- Result of `response.json::<T>()` on a given body: either the decoded
value or a decode-failure message. -/
inductive Decode (α : Type) where
  | ok : α → Decode α
  | fail : String → Decode α
deriving Repr, DecidableEq

/-- One HTTP response as the client observes it: the numeric status code,
what `response.json::<T>()` would yield on its body, and what
`response.text()` would yield (`none` models a body-read failure). -/
structure Response (α : Type) where
  status : Nat
  decode : Decode α
  text : Option String
deriving Repr, DecidableEq

/-- Outcome of one transport attempt: either a response, or a transport-layer
error (the `?` on `self.client.get(url).send().await`). -/
inductive TransportOutcome (α : Type) where
  | resp : Response α → TransportOutcome α
  | transportErr : TransportOutcome α
deriving Repr, DecidableEq

/-- A mocked transport: the outcome of the n-th transport attempt
(0-indexed) of one logical request. -/
abbrev Transport (α : Type) := Nat → TransportOutcome α

/-- Predicate `reqwest::StatusCode::is_success()`: status in 200..=299. -/
def isSuccessStatus (s : Nat) : Bool := 200 ≤ s && s ≤ 299

/-- Observable result of one `MusicBrainzClient::get` call: the returned
value or error, the number of transport attempts issued, and the backoff
sleeps performed (in order, in seconds). -/
structure GetResult (α : Type) where
  result : MbResult α
  attempts : Nat
  sleeps : List Nat
deriving Repr

/-- The body of the `loop` in `MusicBrainzClient::get`
(src/musicbrainz/client.rs lines 83-132), one recursive call per loop
iteration.  `attempt` counts transport attempts already issued, `retries`
and `backoff` are the loop-local mutables, `sleeps` accumulates the backoff
sleeps performed so far. -/
def getAux {α : Type} (transport : Transport α) (url : String)
    (attempt retries backoff : Nat) (sleeps : List Nat) : GetResult α :=
  match transport attempt with
  | .transportErr => ⟨.error .Request, attempt + 1, sleeps⟩
  | .resp r =>
    if isSuccessStatus r.status then
      match r.decode with
      | .ok v => ⟨.ok v, attempt + 1, sleeps⟩
      | .fail e => ⟨.error (.ParseError ("Failed to parse response: " ++ e)),
                    attempt + 1, sleeps⟩
    else if r.status = 404 then
      ⟨.error (.NotFound url), attempt + 1, sleeps⟩
    else if r.status = 503 then
      if MAX_RETRIES ≤ retries then
        ⟨.error .RateLimited, attempt + 1, sleeps⟩
      else
        getAux transport url (attempt + 1) (retries + 1) (backoff * 2)
          (sleeps ++ [backoff])
    else
      ⟨.error (.ApiError r.status (r.text.getD "Unknown error")),
       attempt + 1, sleeps⟩
termination_by MAX_RETRIES - retries
decreasing_by simp only [MAX_RETRIES] at *; omega

/-- Entry point `MusicBrainzClient::get`: `retries = 0`, `backoff = INITIAL_BACKOFF`. -/
def get {α : Type} (transport : Transport α) (url : String) : GetResult α :=
  getAux transport url 0 0 INITIAL_BACKOFF []

/-- State `struct RateLimiter { last_request: Instant }`.  Instants are integer
timestamps in seconds; `last_request` always records the time at which the
most recent `acquire()` returned (or, for a fresh limiter, `now - interval`). -/
structure RateLimiter where
  last_request : Int
deriving Repr, DecidableEq

/-- Constructor `RateLimiter::new()`: `last_request = Instant::now() - RATE_LIMIT_INTERVAL`,
with `now` the construction time. -/
def RateLimiter.new (now : Int) : RateLimiter :=
  ⟨now - RATE_LIMIT_INTERVAL⟩

/-- Method `RateLimiter::acquire`, called at wall-clock time `now` (the value of
`self.last_request.elapsed()` is `now - last_request`).  Returns the sleep
duration performed and the updated state; the call returns at time
`now + wait`, and `self.last_request = Instant::now()` after the sleep
records exactly that return time (sleeps are modelled as exact). -/
def RateLimiter.acquire (rl : RateLimiter) (now : Int) : Int × RateLimiter :=
  let elapsed := now - rl.last_request
  let wait := if elapsed < RATE_LIMIT_INTERVAL then RATE_LIMIT_INTERVAL - elapsed else 0
  (wait, ⟨now + wait⟩)

/-- The wall-clock time at which `acquire` called at `now` returns. -/
def RateLimiter.returnTime (rl : RateLimiter) (now : Int) : Int :=
  now + (rl.acquire now).1

/-- A sequence of `acquire` calls on one shared gate, serialized by the
`Mutex`: the first call enters at time `t`, and each later call enters
`d` after the previous call returned (`d ≥ 0` is the scheduling delay of
the next caller; the mutex prevents any overlap).  Returns the list of
return times, in order. -/
def runAcquires (rl : RateLimiter) (t : Int) : List Int → List Int
  | [] => [rl.returnTime t]
  | d :: ds => rl.returnTime t :: runAcquires (rl.acquire t).2 (rl.returnTime t + d) ds

/-- Hex digits of `urlencoding::encode` (uppercase). -/
def hexDigit (n : Nat) : Char :=
  if n < 10 then Char.ofNat (48 + n) else Char.ofNat (55 + n)

/-- Standard UTF-8 byte encoding of one character (bytes as naturals
below 256); `urlencoding::encode` operates on the UTF-8 bytes of its
input string. -/
def charUtf8Bytes (c : Char) : List Nat :=
  let n := c.toNat
  if n < 128 then [n]
  else if n < 2048 then [192 + n / 64, 128 + n % 64]
  else if n < 65536 then [224 + n / 4096, 128 + (n / 64) % 64, 128 + n % 64]
  else [240 + n / 262144, 128 + (n / 4096) % 64, 128 + (n / 64) % 64, 128 + n % 64]

/-- Bytes left unencoded by `urlencoding::encode`: ASCII alphanumerics and
`-`, `.`, `_`, `~`. -/
def isUrlUnreserved (b : Nat) : Bool :=
  (65 ≤ b && b ≤ 90) || (97 ≤ b && b ≤ 122) || (48 ≤ b && b ≤ 57) ||
    b = 45 || b = 46 || b = 95 || b = 126

/-- Percent-encoding of a single byte, as `urlencoding::encode` does it. -/
def encodeByte (b : Nat) : String :=
  if isUrlUnreserved b then String.singleton (Char.ofNat b)
  else "%" ++ String.singleton (hexDigit (b / 16)) ++
    String.singleton (hexDigit (b % 16))

/-- Function `urlencoding::encode`: percent-encode the UTF-8 bytes of the string. -/
def urlencode (s : String) : String :=
  ((s.data.map charUtf8Bytes).flatten).foldl (fun acc b => acc ++ encodeByte b) ""

/-- The URL built by `MusicBrainzClient::search_recordings`:
`limit.unwrap_or(25).min(100)`, `offset.unwrap_or(0)`. -/
def search_recordings_url (base query : String) (limit offset : Option Nat) : String :=
  let l := min (limit.getD 25) 100
  let o := offset.getD 0
  base ++ "/recording?query=" ++ urlencode query ++ "&limit=" ++ toString l ++
    "&offset=" ++ toString o ++ "&fmt=json"

/-- The URL built by `MusicBrainzClient::search_artists`. -/
def search_artists_url (base query : String) (limit offset : Option Nat) : String :=
  let l := min (limit.getD 25) 100
  let o := offset.getD 0
  base ++ "/artist?query=" ++ urlencode query ++ "&limit=" ++ toString l ++
    "&offset=" ++ toString o ++ "&fmt=json"

/-- The URL built by `MusicBrainzClient::search_releases`. -/
def search_releases_url (base query : String) (limit offset : Option Nat) : String :=
  let l := min (limit.getD 25) 100
  let o := offset.getD 0
  base ++ "/release?query=" ++ urlencode query ++ "&limit=" ++ toString l ++
    "&offset=" ++ toString o ++ "&fmt=json"

/-- MusicBrainz identifiers: the `uuid::Uuid` type is external to the
repository; a `Uuid` value is abstracted as its hyphenated string
rendering (`format!("{}", mbid)`), which is all the client uses of it. -/
abbrev Uuid := String

/-- The URL built by `MusicBrainzClient::lookup_recording`. -/
def lookup_recording_url (base : String) (mbid : Uuid) : String :=
  base ++ "/recording/" ++ mbid ++ "?inc=artists+releases&fmt=json"

/-- The URL built by `MusicBrainzClient::lookup_artist`. -/
def lookup_artist_url (base : String) (mbid : Uuid) : String :=
  base ++ "/artist/" ++ mbid ++ "?inc=recordings+releases&fmt=json"

/-- The URL built by `MusicBrainzClient::lookup_release`. -/
def lookup_release_url (base : String) (mbid : Uuid) : String :=
  base ++ "/release/" ++ mbid ++ "?inc=artists&fmt=json"

/-- Operation `MusicBrainzClient::search_recordings` = build URL, then `self.get(&url)`.
`α` stands for the operation's response model (`RecordingSearchResult`). -/
def search_recordings {α : Type} (transport : Transport α) (base query : String)
    (limit offset : Option Nat) : GetResult α :=
  get transport (search_recordings_url base query limit offset)

/-- Operation `MusicBrainzClient::search_artists` (`α` = `ArtistSearchResult`). -/
def search_artists {α : Type} (transport : Transport α) (base query : String)
    (limit offset : Option Nat) : GetResult α :=
  get transport (search_artists_url base query limit offset)

/-- Operation `MusicBrainzClient::search_releases` (`α` = `ReleaseSearchResult`). -/
def search_releases {α : Type} (transport : Transport α) (base query : String)
    (limit offset : Option Nat) : GetResult α :=
  get transport (search_releases_url base query limit offset)

/-- Operation `MusicBrainzClient::lookup_recording` (`α` = `Recording`). -/
def lookup_recording {α : Type} (transport : Transport α) (base : String)
    (mbid : Uuid) : GetResult α :=
  get transport (lookup_recording_url base mbid)

/-- Operation `MusicBrainzClient::lookup_artist` (`α` = `Artist`). -/
def lookup_artist {α : Type} (transport : Transport α) (base : String)
    (mbid : Uuid) : GetResult α :=
  get transport (lookup_artist_url base mbid)

/-- Operation `MusicBrainzClient::lookup_release` (`α` = `Release`). -/
def lookup_release {α : Type} (transport : Transport α) (base : String)
    (mbid : Uuid) : GetResult α :=
  get transport (lookup_release_url base mbid)

/-! JSON values and the serde-derived decoding of the response models
(src/musicbrainz/models.rs).  Only the natural-number subset of JSON
numbers is modelled: every numeric field in the models is unsigned
(`u64` lengths, `u8` scores, `u32` counts). -/

/-- A JSON value. -/
inductive Json where
  | null : Json
  | bool : Bool → Json
  | num : Nat → Json
  | str : String → Json
  | arr : List Json → Json
  | obj : List (String × Json) → Json

/-- Look up a field of a JSON object by name (first occurrence). -/
def jsonField (fields : List (String × Json)) (key : String) : Option Json :=
  fields.lookup key

/-- Decode a JSON string. -/
def decodeString : Json → Option String
  | .str s => some s
  | _ => none

/-- Decode a JSON number as an unsigned integer (`u64` and wider). -/
def decodeNat : Json → Option Nat
  | .num n => some n
  | _ => none

/-- Decode a `u8` (serde rejects out-of-range numbers). -/
def decodeU8 (j : Json) : Option Nat :=
  (decodeNat j).bind fun n => if n ≤ 255 then some n else none

/-- Decode a JSON boolean. -/
def decodeBool : Json → Option Bool
  | .bool b => some b
  | _ => none

/-- A `Uuid`-typed field: the uuid crate is external to the repository, so
its string parse is abstracted as accepting the JSON string. -/
def decodeUuid : Json → Option Uuid := decodeString

/-- A required struct field: missing or mis-typed is a decode error. -/
def reqField {α : Type} (fields : List (String × Json)) (key : String)
    (dec : Json → Option α) : Option α :=
  (jsonField fields key).bind dec

/-- An `Option<T>` struct field: serde treats a missing field or an
explicit `null` as `None`. -/
def optField {α : Type} (fields : List (String × Json)) (key : String)
    (dec : Json → Option α) : Option (Option α) :=
  match jsonField fields key with
  | none => some none
  | some .null => some none
  | some j => (dec j).map some

/-- A `#[serde(default)] Vec<T>` field: missing yields the empty vector. -/
def defListField {α : Type} (fields : List (String × Json)) (key : String)
    (dec : Json → Option α) : Option (List α) :=
  match jsonField fields key with
  | none => some []
  | some (.arr xs) => xs.mapM dec
  | some _ => none

/-- A `#[serde(default)] String` field: missing yields the empty string. -/
def defStringField (fields : List (String × Json)) (key : String) : Option String :=
  match jsonField fields key with
  | none => some ""
  | some j => decodeString j

/-- Model `LifeSpan` (wire fields `begin`, `end`, `ended`); the source field
`end` is spelled `end_` here because `end` is reserved in Lean. -/
structure LifeSpan where
  begin : Option String
  end_ : Option String
  ended : Option Bool
deriving Repr, DecidableEq

/-- serde decoding of `LifeSpan`. -/
def decodeLifeSpan : Json → Option LifeSpan
  | .obj fs => do
    let b ← optField fs "begin" decodeString
    let e ← optField fs "end" decodeString
    let ed ← optField fs "ended" decodeBool
    some ⟨b, e, ed⟩
  | _ => none

/-- Model `ArtistRef` (wire field `sort-name` maps to `sort_name`). -/
structure ArtistRef where
  id : Uuid
  name : String
  sort_name : Option String
  disambiguation : Option String
deriving Repr, DecidableEq

/-- serde decoding of `ArtistRef`. -/
def decodeArtistRef : Json → Option ArtistRef
  | .obj fs => do
    let id ← reqField fs "id" decodeUuid
    let name ← reqField fs "name" decodeString
    let sn ← optField fs "sort-name" decodeString
    let dis ← optField fs "disambiguation" decodeString
    some ⟨id, name, sn, dis⟩
  | _ => none

/-- Model `ArtistCredit` (`joinphrase` is `#[serde(default)]`). -/
structure ArtistCredit where
  name : String
  artist : ArtistRef
  joinphrase : String
deriving Repr, DecidableEq

/-- serde decoding of `ArtistCredit`. -/
def decodeArtistCredit : Json → Option ArtistCredit
  | .obj fs => do
    let name ← reqField fs "name" decodeString
    let artist ← reqField fs "artist" decodeArtistRef
    let jp ← defStringField fs "joinphrase"
    some ⟨name, artist, jp⟩
  | _ => none

/-- Model `ReleaseGroupRef` (wire field `primary-type` maps to `primary_type`). -/
structure ReleaseGroupRef where
  id : Uuid
  title : Option String
  primary_type : Option String
deriving Repr, DecidableEq

/-- serde decoding of `ReleaseGroupRef`. -/
def decodeReleaseGroupRef : Json → Option ReleaseGroupRef
  | .obj fs => do
    let id ← reqField fs "id" decodeUuid
    let title ← optField fs "title" decodeString
    let pt ← optField fs "primary-type" decodeString
    some ⟨id, title, pt⟩
  | _ => none

/-- Model `ReleaseRef` (wire field `release-group` maps to `release_group`). -/
structure ReleaseRef where
  id : Uuid
  title : String
  status : Option String
  date : Option String
  country : Option String
  release_group : Option ReleaseGroupRef
deriving Repr, DecidableEq

/-- serde decoding of `ReleaseRef`. -/
def decodeReleaseRef : Json → Option ReleaseRef
  | .obj fs => do
    let id ← reqField fs "id" decodeUuid
    let title ← reqField fs "title" decodeString
    let status ← optField fs "status" decodeString
    let date ← optField fs "date" decodeString
    let country ← optField fs "country" decodeString
    let rg ← optField fs "release-group" decodeReleaseGroupRef
    some ⟨id, title, status, date, country, rg⟩
  | _ => none

/-- Model `Recording` (wire fields `first-release-date`, `artist-credit`;
`artist_credit` and `releases` are `#[serde(default)]` vectors). -/
structure Recording where
  id : Uuid
  title : String
  length : Option Nat
  disambiguation : Option String
  first_release_date : Option String
  artist_credit : List ArtistCredit
  releases : List ReleaseRef
deriving Repr, DecidableEq

/-- serde decoding of `Recording`. -/
def decodeRecording : Json → Option Recording
  | .obj fs => do
    let id ← reqField fs "id" decodeUuid
    let title ← reqField fs "title" decodeString
    let len ← optField fs "length" decodeNat
    let dis ← optField fs "disambiguation" decodeString
    let frd ← optField fs "first-release-date" decodeString
    let ac ← defListField fs "artist-credit" decodeArtistCredit
    let rels ← defListField fs "releases" decodeReleaseRef
    some ⟨id, title, len, dis, frd, ac, rels⟩
  | _ => none

/-- Model `ArtistSearchHit` (wire fields `sort-name`, `type`, `life-span`). -/
structure ArtistSearchHit where
  id : Uuid
  score : Nat
  name : String
  sort_name : Option String
  artist_type : Option String
  country : Option String
  disambiguation : Option String
  life_span : Option LifeSpan
deriving Repr, DecidableEq

/-- serde decoding of `ArtistSearchHit` (`score : u8`). -/
def decodeArtistSearchHit : Json → Option ArtistSearchHit
  | .obj fs => do
    let id ← reqField fs "id" decodeUuid
    let score ← reqField fs "score" decodeU8
    let name ← reqField fs "name" decodeString
    let sn ← optField fs "sort-name" decodeString
    let ty ← optField fs "type" decodeString
    let country ← optField fs "country" decodeString
    let dis ← optField fs "disambiguation" decodeString
    let ls ← optField fs "life-span" decodeLifeSpan
    some ⟨id, score, name, sn, ty, country, dis, ls⟩
  | _ => none

/-- Enum `DownloadStatus` from src/db/models.rs. -/
inductive DownloadStatus where
  | Pending : DownloadStatus
  | Downloading : DownloadStatus
  | Processing : DownloadStatus
  | Completed : DownloadStatus
  | Failed : DownloadStatus
deriving Repr, DecidableEq

/-- Conversion `impl From<String> for DownloadStatus` (src/db/models.rs lines 86-97):
the five recognized strings, everything else falls back to `Pending`. -/
def DownloadStatus.fromString (s : String) : DownloadStatus :=
  match s with
  | "pending" => .Pending
  | "downloading" => .Downloading
  | "processing" => .Processing
  | "completed" => .Completed
  | "failed" => .Failed
  | _ => .Pending

/-- Conversion `impl From<DownloadStatus> for String` (src/db/models.rs lines 99-109). -/
def DownloadStatus.asString : DownloadStatus → String
  | .Pending => "pending"
  | .Downloading => "downloading"
  | .Processing => "processing"
  | .Completed => "completed"
  | .Failed => "failed"

/-- Whether a client result is the `InvalidMbid` error (it never is). -/
def isInvalidMbidResult {α : Type} : MbResult α → Bool
  | .error (.InvalidMbid _) => true
  | _ => false

/-- Example transport: answers 503 on every attempt. -/
def tr503 : Transport Nat := fun _ => .resp ⟨503, .fail "overloaded", none⟩

/-- Example transport: answers 503 twice, then 200 with a decodable body. -/
def tr503twice200 : Transport Nat :=
  fun n => if n < 2 then .resp ⟨503, .fail "overloaded", none⟩
    else .resp ⟨200, .ok 7, none⟩

/-- Example transport: answers 404 on every attempt. -/
def tr404 : Transport Nat := fun _ => .resp ⟨404, .fail "nf", none⟩

/-- Example transport: answers 200 with a body that fails to decode. -/
def tr200bad : Transport Nat := fun _ => .resp ⟨200, .fail "bad", some "x"⟩

/-- Example transport: answers 500 with readable body text. -/
def tr500 : Transport Nat := fun _ => .resp ⟨500, .fail "srv", some "server exploded"⟩

/-- Example transport: answers 500 and the body cannot be read. -/
def tr500none : Transport Nat := fun _ => .resp ⟨500, .fail "srv", none⟩

/-! Theorems.  Helper lemmas come first; each claim of the specification is
then settled by one theorem (with a witness instantiation when the theorem
has hypotheses). -/

/-- Every `acquire` returns at least `RATE_LIMIT_INTERVAL` after the time
recorded by the previous `acquire` return. -/
theorem acquire_return_ge (rl : RateLimiter) (t : Int) :
    rl.last_request + RATE_LIMIT_INTERVAL ≤ rl.returnTime t := by
  simp only [RateLimiter.returnTime, RateLimiter.acquire]
  split <;> omega

/-- After `acquire`, `last_request` records exactly the return time. -/
theorem acquire_state (rl : RateLimiter) (t : Int) :
    (rl.acquire t).2.last_request = rl.returnTime t := rfl

/-- The first return time of a serialized acquire sequence. -/
theorem runAcquires_head (rl : RateLimiter) (t : Int) (ds : List Int) :
    (runAcquires rl t ds).head? = some (rl.returnTime t) := by
  cases ds <;> rfl

/-- An acquire sequence is never empty, so `getLast?` skips a cons cell. -/
theorem runAcquires_cons_getLast (x : Int) (rl : RateLimiter) (t : Int) (ds : List Int) :
    (x :: runAcquires rl t ds).getLast? = (runAcquires rl t ds).getLast? := by
  cases ds <;> simp [runAcquires, List.getLast?_cons_cons]

/-- Consecutive return times of a serialized acquire sequence are at least
`RATE_LIMIT_INTERVAL` apart. -/
theorem runAcquires_chain (rl : RateLimiter) (t : Int) (ds : List Int) :
    List.Chain' (fun a b => a + RATE_LIMIT_INTERVAL ≤ b) (runAcquires rl t ds) := by
  induction ds generalizing rl t with
  | nil => simp [runAcquires]
  | cons d ds ih =>
    rw [runAcquires]
    refine List.chain'_cons'.mpr ⟨?_, ih _ _⟩
    intro y hy
    rw [runAcquires_head] at hy
    injection hy with hy
    subst hy
    calc rl.returnTime t + RATE_LIMIT_INTERVAL
        = (rl.acquire t).2.last_request + RATE_LIMIT_INTERVAL := by rw [acquire_state]
      _ ≤ _ := acquire_return_ge _ _

/-- The span between the first and last return of a serialized acquire
sequence grows by at least `RATE_LIMIT_INTERVAL` per call. -/
theorem runAcquires_span (rl : RateLimiter) (t : Int) (ds : List Int) (a b : Int)
    (ha : (runAcquires rl t ds).head? = some a)
    (hb : (runAcquires rl t ds).getLast? = some b) :
    a + (ds.length : Int) * RATE_LIMIT_INTERVAL ≤ b := by
  induction ds generalizing rl t a b with
  | nil =>
    rw [runAcquires] at ha hb
    simp only [List.head?_cons, List.getLast?_singleton, Option.some.injEq] at ha hb
    simp only [List.length_nil, Nat.cast_zero, zero_mul, add_zero]
    omega
  | cons d ds ih =>
    rw [runAcquires] at ha hb
    simp only [List.head?_cons, Option.some.injEq] at ha
    subst ha
    rw [runAcquires_cons_getLast] at hb
    have h1 := ih (rl.acquire t).2 (rl.returnTime t + d)
      ((rl.acquire t).2.returnTime (rl.returnTime t + d)) b (runAcquires_head _ _ _) hb
    have h2 : rl.returnTime t + RATE_LIMIT_INTERVAL ≤
        (rl.acquire t).2.returnTime (rl.returnTime t + d) := by
      rw [← acquire_state]
      exact acquire_return_ge _ _
    simp only [List.length_cons, RATE_LIMIT_INTERVAL] at *
    omega

/-- The retry loop never produces the `InvalidMbid` error, from any loop
state. -/
theorem getAux_never_invalid_mbid {α : Type} (transport : Transport α) (url : String)
    (attempt retries backoff : Nat) (sleeps : List Nat) :
    isInvalidMbidResult (getAux transport url attempt retries backoff sleeps).result = false := by
  induction attempt, retries, backoff, sleeps using getAux.induct transport url with
  | case1 a r b sl h =>
    rw [getAux.eq_def, h]; simp [isInvalidMbidResult]
  | case2 a r b sl rr h hs v hd =>
    rw [getAux.eq_def, h]; simp [hs, hd, isInvalidMbidResult]
  | case3 a r b sl rr h hs e hd =>
    rw [getAux.eq_def, h]; simp [hs, hd, isInvalidMbidResult]
  | case4 a r b sl rr h hs h404 =>
    rw [getAux.eq_def, h]; simp [hs, h404, isSuccessStatus, isInvalidMbidResult]
  | case5 a r b sl rr h hs h404 h503 hmax =>
    rw [getAux.eq_def, h]; simp [hs, h404, h503, hmax, isSuccessStatus, isInvalidMbidResult]
  | case6 a r b sl rr h hs h404 h503 hmax ih =>
    rw [getAux.eq_def, h]; simp [hs, h404, h503, hmax]; exact ih
  | case7 a r b sl rr h hs h404 h503 =>
    rw [getAux.eq_def, h]; simp [hs, h404, h503, isInvalidMbidResult]

/-- Specialization of `getAux_never_invalid_mbid` to `get`. -/
theorem get_never_invalid_mbid {α : Type} (transport : Transport α) (url : String) :
    isInvalidMbidResult (get transport url).result = false :=
  getAux_never_invalid_mbid transport url 0 0 INITIAL_BACKOFF []

/-- Claim C1: for every request URL, if the transport returns status 503 on
every attempt, `get` returns `MbError::RateLimited` after exactly
`MAX_RETRIES` retried attempts, i.e. exactly `MAX_RETRIES + 1 = 4` total
transport attempts, never more. -/
theorem claim_C1 {α : Type} (transport : Transport α) (url : String)
    (h : ∀ n, ∃ d t, transport n = .resp ⟨503, d, t⟩) :
    (get transport url).result = .error .RateLimited ∧
    (get transport url).attempts = MAX_RETRIES + 1 ∧
    (get transport url).sleeps.length = MAX_RETRIES := by
  obtain ⟨d0, t0, h0⟩ := h 0
  obtain ⟨d1, t1, h1⟩ := h 1
  obtain ⟨d2, t2, h2⟩ := h 2
  obtain ⟨d3, t3, h3⟩ := h 3
  refine ⟨?_, ?_, ?_⟩ <;>
    simp [get, getAux, h0, h1, h2, h3, isSuccessStatus, MAX_RETRIES, INITIAL_BACKOFF]

/-- Witness for C1 on a concrete always-503 transport. -/
theorem claim_C1_witness :
    (get tr503 "https://musicbrainz.org/ws/2/recording/x").result = .error .RateLimited ∧
    (get tr503 "https://musicbrainz.org/ws/2/recording/x").attempts = MAX_RETRIES + 1 ∧
    (get tr503 "https://musicbrainz.org/ws/2/recording/x").sleeps.length = MAX_RETRIES :=
  claim_C1 tr503 "https://musicbrainz.org/ws/2/recording/x"
    (fun _ => ⟨.fail "overloaded", none, rfl⟩)

/-- Claim C2: the gate state is the single timestamp `last_request`, which
always records the time the previous `acquire` returned; every `acquire`
returns at least `RATE_LIMIT_INTERVAL` after that; and an `acquire` on an
idle gate — the previous return at least an interval in the past, including
a freshly constructed gate — performs no wait at all. -/
theorem claim_C2 (rl : RateLimiter) (now t c : Int) :
    (rl.last_request + RATE_LIMIT_INTERVAL ≤ rl.returnTime now ∧
      (rl.acquire now).2.last_request = rl.returnTime now) ∧
    (rl.last_request + RATE_LIMIT_INTERVAL ≤ now → (rl.acquire now).1 = 0) ∧
    (t ≤ c → ((RateLimiter.new t).acquire c).1 = 0) := by
  refine ⟨⟨acquire_return_ge rl now, rfl⟩, ?_, ?_⟩ <;>
    simp only [RateLimiter.acquire, RateLimiter.new, RATE_LIMIT_INTERVAL] <;>
    intro h <;> split <;> omega

/-- Witness for C2 at a concrete gate state and times. -/
theorem claim_C2_witness :
    ((⟨0⟩ : RateLimiter).last_request + RATE_LIMIT_INTERVAL ≤
        RateLimiter.returnTime ⟨0⟩ 5 ∧
      ((⟨0⟩ : RateLimiter).acquire 5).2.last_request = RateLimiter.returnTime ⟨0⟩ 5) ∧
    ((⟨0⟩ : RateLimiter).acquire 5).1 = 0 ∧
    ((RateLimiter.new 0).acquire 5).1 = 0 :=
  ⟨(claim_C2 ⟨0⟩ 5 0 5).1, (claim_C2 ⟨0⟩ 5 0 5).2.1 (by decide),
    (claim_C2 ⟨0⟩ 5 0 5).2.2 (by decide)⟩

/-- Claim C3: if the transport returns 503 exactly `K` times
(`K < MAX_RETRIES`) and then 200 with a decodable body, the operation
succeeds after `K + 1` attempts, and the backoff sleeps performed are
exactly `INITIAL_BACKOFF * 2 ^ i` for `i < K` (doubling each retry, no
jitter, no cap), so their total is `INITIAL_BACKOFF * (2^0 + … + 2^(K-1))`. -/
theorem claim_C3 {α : Type} (transport : Transport α) (url : String) (K : Nat) (v : α)
    (t : Option String) (hK : K < MAX_RETRIES)
    (h503 : ∀ n, n < K → ∃ d t2, transport n = .resp ⟨503, d, t2⟩)
    (h200 : transport K = .resp ⟨200, .ok v, t⟩) :
    (get transport url).result = .ok v ∧
    (get transport url).attempts = K + 1 ∧
    (get transport url).sleeps = (List.range K).map (fun i => INITIAL_BACKOFF * 2 ^ i) ∧
    (get transport url).sleeps.sum = ∑ i ∈ Finset.range K, INITIAL_BACKOFF * 2 ^ i := by
  have hK3 : K < 3 := by simpa [MAX_RETRIES] using hK
  interval_cases K
  · refine ⟨?_, ?_, ?_, ?_⟩ <;>
      simp [get, getAux, h200, isSuccessStatus, MAX_RETRIES, INITIAL_BACKOFF]
  · obtain ⟨d0, t0, h0⟩ := h503 0 (by omega)
    refine ⟨?_, ?_, ?_, ?_⟩ <;>
      simp [get, getAux, h0, h200, isSuccessStatus, MAX_RETRIES, INITIAL_BACKOFF,
        List.range_succ]
  · obtain ⟨d0, t0, h0⟩ := h503 0 (by omega)
    obtain ⟨d1, t1, h1⟩ := h503 1 (by omega)
    refine ⟨?_, ?_, ?_, ?_⟩ <;>
      simp [get, getAux, h0, h1, h200, isSuccessStatus, MAX_RETRIES, INITIAL_BACKOFF,
        List.range_succ, Finset.sum_range_succ]

/-- Witness for C3 with `K = 2` on a concrete transport. -/
theorem claim_C3_witness :
    (get tr503twice200 "u").result = .ok 7 ∧
    (get tr503twice200 "u").attempts = 2 + 1 ∧
    (get tr503twice200 "u").sleeps = (List.range 2).map (fun i => INITIAL_BACKOFF * 2 ^ i) ∧
    (get tr503twice200 "u").sleeps.sum = ∑ i ∈ Finset.range 2, INITIAL_BACKOFF * 2 ^ i :=
  claim_C3 tr503twice200 "u" 2 7 none (by decide)
    (by intro n hn; interval_cases n <;> exact ⟨.fail "overloaded", none, rfl⟩) rfl

/-- Claim C4: every first-attempt outcome other than a 503 response — a
response of any non-503 status (2xx whether or not the body decodes, 404,
any other status), or a transport-layer failure — is terminal: exactly one
transport attempt, no retry, no backoff sleep. -/
theorem claim_C4 {α : Type} (transport : Transport α) (url : String)
    (h : transport 0 = .transportErr ∨ ∃ r, transport 0 = .resp r ∧ r.status ≠ 503) :
    (get transport url).attempts = 1 ∧ (get transport url).sleeps = [] := by
  rcases h with h | ⟨r, hr, hs⟩
  · simp [get, getAux, h]
  · rw [get, getAux.eq_def, hr]
    cases hd : r.decode <;> simp [hd, hs] <;> split_ifs <;> simp_all

/-- Witness for C4 on a concrete 404 transport. -/
theorem claim_C4_witness :
    (get tr404 "u").attempts = 1 ∧ (get tr404 "u").sleeps = [] :=
  claim_C4 tr404 "u" (Or.inr ⟨⟨404, .fail "nf", none⟩, rfl, by decide⟩)

/-- Claim C5: the response classification — a 2xx status whose body fails
to decode yields `ParseError`; 404 yields `NotFound` carrying the URL; any
non-2xx status other than 404 and 503 yields `ApiError` with that status
and the raw body text as message, with the fixed placeholder when the body
cannot be read. -/
theorem claim_C5 (α : Type) (url : String) :
    (∀ (tr : Transport α) (s : Nat) (e : String) (t : Option String),
        isSuccessStatus s = true → tr 0 = .resp ⟨s, .fail e, t⟩ →
        (get tr url).result = .error (.ParseError ("Failed to parse response: " ++ e))) ∧
    (∀ (tr : Transport α) (d : Decode α) (t : Option String),
        tr 0 = .resp ⟨404, d, t⟩ →
        (get tr url).result = .error (.NotFound url)) ∧
    (∀ (tr : Transport α) (s : Nat) (d : Decode α) (t : String),
        isSuccessStatus s = false → s ≠ 404 → s ≠ 503 →
        tr 0 = .resp ⟨s, d, some t⟩ →
        (get tr url).result = .error (.ApiError s t)) ∧
    (∀ (tr : Transport α) (s : Nat) (d : Decode α),
        isSuccessStatus s = false → s ≠ 404 → s ≠ 503 →
        tr 0 = .resp ⟨s, d, none⟩ →
        (get tr url).result = .error (.ApiError s "Unknown error")) := by
  refine ⟨?_, ?_, ?_, ?_⟩
  · intro tr s e t hs htr
    rw [get, getAux.eq_def, htr]
    simp [hs]
  · intro tr d t htr
    rw [get, getAux.eq_def, htr]
    cases d <;> simp [isSuccessStatus]
  · intro tr s d t hs h404 h503 htr
    rw [get, getAux.eq_def, htr]
    simp [hs, h404, h503]
  · intro tr s d hs h404 h503 htr
    rw [get, getAux.eq_def, htr]
    simp [hs, h404, h503]

/-- Witness for C5 on concrete transports for each classification branch. -/
theorem claim_C5_witness :
    (get tr200bad "u").result =
      .error (.ParseError ("Failed to parse response: " ++ "bad")) ∧
    (get tr404 "u").result = .error (.NotFound "u") ∧
    (get tr500 "u").result = .error (.ApiError 500 "server exploded") ∧
    (get tr500none "u").result = .error (.ApiError 500 "Unknown error") :=
  ⟨(claim_C5 Nat "u").1 tr200bad 200 "bad" (some "x") (by decide) rfl,
   (claim_C5 Nat "u").2.1 tr404 (.fail "nf") none rfl,
   (claim_C5 Nat "u").2.2.1 tr500 500 (.fail "srv") "server exploded"
     (by decide) (by decide) (by decide) rfl,
   (claim_C5 Nat "u").2.2.2 tr500none 500 (.fail "srv")
     (by decide) (by decide) (by decide) rfl⟩

/-- Claim C6: for each search operation, an omitted `limit` is sent as 25,
a `limit` of at least 100 is clamped to 100, an omitted `offset` is sent as
0, and the free-text query appears percent-encoded in the URL sent to the
transport. -/
theorem claim_C6 (base q : String) :
    (∀ off : Option Nat,
      search_recordings_url base q none off = search_recordings_url base q (some 25) off ∧
      search_artists_url base q none off = search_artists_url base q (some 25) off ∧
      search_releases_url base q none off = search_releases_url base q (some 25) off) ∧
    (∀ (l : Nat) (off : Option Nat), 100 ≤ l →
      search_recordings_url base q (some l) off =
        search_recordings_url base q (some 100) off ∧
      search_artists_url base q (some l) off =
        search_artists_url base q (some 100) off ∧
      search_releases_url base q (some l) off =
        search_releases_url base q (some 100) off) ∧
    (∀ lim : Option Nat,
      search_recordings_url base q lim none = search_recordings_url base q lim (some 0) ∧
      search_artists_url base q lim none = search_artists_url base q lim (some 0) ∧
      search_releases_url base q lim none = search_releases_url base q lim (some 0)) ∧
    (∀ lim off : Option Nat,
      (∃ rest, search_recordings_url base q lim off =
        base ++ "/recording?query=" ++ urlencode q ++ rest) ∧
      (∃ rest, search_artists_url base q lim off =
        base ++ "/artist?query=" ++ urlencode q ++ rest) ∧
      (∃ rest, search_releases_url base q lim off =
        base ++ "/release?query=" ++ urlencode q ++ rest)) := by
  refine ⟨fun off => ⟨rfl, rfl, rfl⟩, fun l off h => ?_, fun lim => ⟨rfl, rfl, rfl⟩,
    fun lim off => ?_⟩
  · refine ⟨?_, ?_, ?_⟩ <;>
      simp [search_recordings_url, search_artists_url, search_releases_url,
        Nat.min_eq_right h]
  · refine ⟨⟨"&limit=" ++ toString (min (lim.getD 25) 100) ++ "&offset=" ++
        toString (off.getD 0) ++ "&fmt=json", ?_⟩,
      ⟨"&limit=" ++ toString (min (lim.getD 25) 100) ++ "&offset=" ++
        toString (off.getD 0) ++ "&fmt=json", ?_⟩,
      ⟨"&limit=" ++ toString (min (lim.getD 25) 100) ++ "&offset=" ++
        toString (off.getD 0) ++ "&fmt=json", ?_⟩⟩ <;>
    simp [search_recordings_url, search_artists_url, search_releases_url,
      String.append_assoc]

/-- Witness for C6: `limit = 500` is clamped to 100 on a concrete query. -/
theorem claim_C6_witness :
    search_recordings_url "b" "q w" (some 500) (some 0) =
      search_recordings_url "b" "q w" (some 100) (some 0) :=
  ((claim_C6 "b" "q w").2.1 500 (some 0) (by decide)).1

/-- Claim C7: for every sequence of serialized `acquire` calls on one gate,
consecutive returns are at least `RATE_LIMIT_INTERVAL` apart (so no two
requests start closer than the interval), and the span between the 1st and
the Nth return is at least `(N - 1) * RATE_LIMIT_INTERVAL`. -/
theorem claim_C7 (rl : RateLimiter) (t : Int) (ds : List Int) :
    List.Chain' (fun a b => a + RATE_LIMIT_INTERVAL ≤ b) (runAcquires rl t ds) ∧
    ∀ a b : Int, (runAcquires rl t ds).head? = some a →
      (runAcquires rl t ds).getLast? = some b →
      a + (ds.length : Int) * RATE_LIMIT_INTERVAL ≤ b :=
  ⟨runAcquires_chain rl t ds, fun a b ha hb => runAcquires_span rl t ds a b ha hb⟩

/-- Witness for C7 on a gate with three back-to-back acquisitions. -/
theorem claim_C7_witness :
    List.Chain' (fun a b => a + RATE_LIMIT_INTERVAL ≤ b) (runAcquires ⟨0⟩ 1 [0, 0]) ∧
    (1 : Int) + (([0, 0] : List Int).length : Int) * RATE_LIMIT_INTERVAL ≤ 3 :=
  ⟨(claim_C7 ⟨0⟩ 1 [0, 0]).1, (claim_C7 ⟨0⟩ 1 [0, 0]).2 1 3 (by decide) (by decide)⟩

/-- Claim C8: decoding bodies with hyphenated wire field names
(`sort-name`, `first-release-date`, `artist-credit`, `release-group`,
`life-span`) fills the corresponding internal fields with the same values,
and bodies missing optional or collection fields decode successfully with
`none` / empty-list defaults. -/
theorem claim_C8 :
    (∀ (id name sn b e : String) (score : Nat), score ≤ 255 →
      decodeArtistSearchHit (.obj [("id", .str id), ("score", .num score),
        ("name", .str name), ("sort-name", .str sn),
        ("life-span", .obj [("begin", .str b), ("end", .str e)])]) =
      some ⟨id, score, name, some sn, none, none, none, some ⟨some b, some e, none⟩⟩) ∧
    (∀ (id name : String) (score : Nat), score ≤ 255 →
      decodeArtistSearchHit (.obj [("id", .str id), ("score", .num score),
        ("name", .str name)]) =
      some ⟨id, score, name, none, none, none, none, none⟩) ∧
    (∀ (id ti frd an aid an2 sn rid rt gid : String),
      decodeRecording (.obj [("id", .str id), ("title", .str ti),
        ("first-release-date", .str frd),
        ("artist-credit", .arr [.obj [("name", .str an),
          ("artist", .obj [("id", .str aid), ("name", .str an2),
            ("sort-name", .str sn)])]]),
        ("releases", .arr [.obj [("id", .str rid), ("title", .str rt),
          ("release-group", .obj [("id", .str gid)])]])]) =
      some ⟨id, ti, none, none, some frd,
        [⟨an, ⟨aid, an2, some sn, none⟩, ""⟩],
        [⟨rid, rt, none, none, none, some ⟨gid, none, none⟩⟩]⟩) ∧
    (∀ (id ti : String),
      decodeRecording (.obj [("id", .str id), ("title", .str ti)]) =
      some ⟨id, ti, none, none, none, [], []⟩) := by
  refine ⟨?_, ?_, ?_, ?_⟩
  · intro id name sn b e score hsc
    simp [decodeArtistSearchHit, decodeLifeSpan, reqField, optField, jsonField,
      decodeUuid, decodeString, decodeU8, decodeNat, decodeBool, List.lookup, hsc]
  · intro id name score hsc
    simp [decodeArtistSearchHit, reqField, optField, jsonField,
      decodeUuid, decodeString, decodeU8, decodeNat, List.lookup, hsc]
  · intro id ti frd an aid an2 sn rid rt gid
    simp [decodeRecording, decodeArtistCredit, decodeArtistRef, decodeReleaseRef,
      decodeReleaseGroupRef, reqField, optField, defListField, defStringField,
      jsonField, decodeUuid, decodeString, decodeNat, List.lookup, List.mapM.loop]
  · intro id ti
    simp [decodeRecording, reqField, optField, defListField, jsonField,
      decodeUuid, decodeString, decodeNat, List.lookup]

/-- Witness for C8 at concrete field values. -/
theorem claim_C8_witness :
    decodeArtistSearchHit (.obj [("id", .str "mbid-1"), ("score", .num 95),
      ("name", .str "Rick Astley"), ("sort-name", .str "Astley, Rick"),
      ("life-span", .obj [("begin", .str "1966-02-27"), ("end", .str "")])]) =
      some ⟨"mbid-1", 95, "Rick Astley", some "Astley, Rick", none, none, none,
        some ⟨some "1966-02-27", some "", none⟩⟩ ∧
    decodeArtistSearchHit (.obj [("id", .str "mbid-2"), ("score", .num 80),
      ("name", .str "Unknown")]) =
      some ⟨"mbid-2", 80, "Unknown", none, none, none, none, none⟩ :=
  ⟨claim_C8.1 "mbid-1" "Rick Astley" "Astley, Rick" "1966-02-27" "" 95 (by decide),
   claim_C8.2.1 "mbid-2" "Unknown" 80 (by decide)⟩

/-- Claim C9: the string-to-status conversion maps the five recognized
strings to their variants and every other string to `Pending`, and
converting a status to its string and back is the identity. -/
theorem claim_C9 :
    (DownloadStatus.fromString "pending" = .Pending ∧
     DownloadStatus.fromString "downloading" = .Downloading ∧
     DownloadStatus.fromString "processing" = .Processing ∧
     DownloadStatus.fromString "completed" = .Completed ∧
     DownloadStatus.fromString "failed" = .Failed) ∧
    (∀ s : String, s ≠ "downloading" → s ≠ "processing" → s ≠ "completed" →
      s ≠ "failed" → DownloadStatus.fromString s = .Pending) ∧
    (∀ st : DownloadStatus, DownloadStatus.fromString st.asString = st) := by
  refine ⟨⟨rfl, rfl, rfl, rfl, rfl⟩, ?_, ?_⟩
  · intro s h1 h2 h3 h4
    unfold DownloadStatus.fromString
    split <;> simp_all
  · intro st
    cases st <;> rfl

/-- Witness for C9: an unrecognized string falls back to `Pending`, and the
round-trip is the identity on a concrete variant. -/
theorem claim_C9_witness :
    DownloadStatus.fromString "queued" = .Pending ∧
    DownloadStatus.fromString (DownloadStatus.asString .Failed) = .Failed :=
  ⟨claim_C9.2.1 "queued" (by decide) (by decide) (by decide) (by decide),
   claim_C9.2.2 .Failed⟩

/-- Claim C10: no public client operation ever returns `InvalidMbid`: for
every transport behaviour and every input, none of the six operations
produces that error. -/
theorem claim_C10 {α : Type} (transport : Transport α) (base query : String)
    (limit offset : Option Nat) (mbid : Uuid) :
    isInvalidMbidResult (search_recordings transport base query limit offset).result = false ∧
    isInvalidMbidResult (search_artists transport base query limit offset).result = false ∧
    isInvalidMbidResult (search_releases transport base query limit offset).result = false ∧
    isInvalidMbidResult (lookup_recording transport base mbid).result = false ∧
    isInvalidMbidResult (lookup_artist transport base mbid).result = false ∧
    isInvalidMbidResult (lookup_release transport base mbid).result = false :=
  ⟨get_never_invalid_mbid transport _, get_never_invalid_mbid transport _,
   get_never_invalid_mbid transport _, get_never_invalid_mbid transport _,
   get_never_invalid_mbid transport _, get_never_invalid_mbid transport _⟩

end OMP
